import Mathlib

/-
Verification of the transcript-processing core of the Test_Case_Generator
repository: the document segmenter (src/transcript_parser.py), the field
normalizer (src/data_cleaner.py) and the PII masking engine
(src/pii_masker.py).

All of the repository's regex work goes through Python's re module with
re.IGNORECASE.  We embed the needed fragment of re as a backtracking
matcher (leftmost-first semantics, greedy repetition, ordered alternation,
word boundaries, end-of-string anchor, lookahead) over List Char, and the
operations re.findall (match count), re.sub, re.split and re.search
(with one capture group) on top of it.
-/

set_option maxRecDepth 100000

namespace TCG

/- Python string helpers, ASCII semantics (the repository's data is ASCII). -/

def isWordChar (c : Char) : Bool := c.isAlpha || c.isDigit || c = '_'

def isSpaceChar (c : Char) : Bool :=
  c = ' ' || c = '\t' || c = '\n' || c = '\r' || c = '\x0b' || c = '\x0c'

def swapCase (c : Char) : Char :=
  if c.isUpper then c.toLower else if c.isLower then c.toUpper else c

def pyLower (s : String) : String := String.mk (s.data.map Char.toLower)

def pyUpper (s : String) : String := String.mk (s.data.map Char.toUpper)

def pyStripList (l : List Char) : List Char :=
  ((l.dropWhile isSpaceChar).reverse.dropWhile isSpaceChar).reverse

def pyStrip (s : String) : String := String.mk (pyStripList s.data)

def titleAux : Bool → List Char → List Char
  | _, [] => []
  | prevCased, c :: t =>
      if c.isAlpha then (if prevCased then c.toLower else c.toUpper) :: titleAux true t
      else c :: titleAux false t

def pyTitle (s : String) : String := String.mk (titleAux false s.data)

def hasInfixL (pat : List Char) : List Char → Bool
  | [] => pat.isEmpty
  | c :: t => if pat.isPrefixOf (c :: t) then true else hasInfixL pat t

/- Python substring test: pat in s. -/
def strContains (s pat : String) : Bool := hasInfixL pat.data s.data

/- Python format f-string 03d zero padding. -/
def pad3 (n : Nat) : String :=
  if n < 10 then "00" ++ toString n
  else if n < 100 then "0" ++ toString n
  else toString n

/- Character classes of the regex fragment. -/

inductive CCItem where
  | rng (lo hi : Char)
  | chr (c : Char)
  | digit
  | word
  | space
deriving DecidableEq

def itemMatch (ch : Char) : CCItem → Bool
  | .rng lo hi => lo ≤ ch && ch ≤ hi
  | .chr c => ch = c
  | .digit => ch.isDigit
  | .word => isWordChar ch
  | .space => isSpaceChar ch

structure CharClass where
  negated : Bool
  items : List CCItem
deriving DecidableEq

def ccMem (ic : Bool) (c : CharClass) (ch : Char) : Bool :=
  c.items.any (itemMatch ch) || (ic && c.items.any (itemMatch (swapCase ch)))

def clsMatch (ic : Bool) (c : CharClass) (ch : Char) : Bool :=
  if c.negated then !(ccMem ic c ch) else ccMem ic c ch

/- The regex fragment used by the repository.  Unbounded repetition is only
ever applied to a single character class in the source patterns, which is
what rep captures; opt is the greedy question mark on a subexpression. -/

inductive Regex where
  | eps : Regex
  | cls : CharClass → Regex
  | lit : List Char → Regex
  | seq : Regex → Regex → Regex
  | alt : Regex → Regex → Regex
  | opt : Regex → Regex
  | rep : CharClass → Nat → Option Nat → Regex
  | wb : Regex
  | eos : Regex
  | look : Regex → Regex
deriving DecidableEq

def rseq (l : List Regex) : Regex := l.foldr Regex.seq Regex.eps

def rstr (s : String) : Regex := Regex.lit s.data

def raltList : List Regex → Regex
  | [] => Regex.eps
  | [r] => r
  | r :: rest => Regex.alt r (raltList rest)

/- Case sensitivity of a literal character comparison. -/
def litEq (ic : Bool) (a b : Char) : Bool :=
  if ic then a.toLower = b.toLower else a = b

/- Match a literal char list; returns the threaded previous char and the rest. -/
def litMatch (ic : Bool) : List Char → Option Char → List Char → Option (Option Char × List Char)
  | [], p, s => some (p, s)
  | l :: lt, _, s =>
      match s with
      | [] => none
      | ch :: t => if litEq ic l ch then litMatch ic lt (some ch) t else none

/- Consume exactly n characters all matching the class. -/
def consumeCls (ic : Bool) (c : CharClass) : Nat → Option Char → List Char → Option (Option Char × List Char)
  | 0, p, s => some (p, s)
  | n + 1, _, s =>
      match s with
      | [] => none
      | ch :: t => if clsMatch ic c ch then consumeCls ic c n (some ch) t else none

/- Longest prefix of s consisting of class characters. -/
def maxCls (ic : Bool) (c : CharClass) : List Char → Nat
  | [] => 0
  | ch :: t => if clsMatch ic c ch then maxCls ic c t + 1 else 0

/- Greedy bounded repetition: try the counts from n down to lo, longest first. -/
def repTry {α : Type} (ic : Bool) (c : CharClass) (lo : Nat)
    (k : Option Char → List Char → Option α) (p : Option Char) (s : List Char) : Nat → Option α
  | 0 => if lo = 0 then k p s else none
  | n + 1 =>
      (if lo ≤ n + 1 then
        match consumeCls ic c (n + 1) p s with
        | some (p2, s2) => k p2 s2
        | none => none
      else none).orElse (fun _ => repTry ic c lo k p s n)

/- Word boundary test at the position between prev and the head of s. -/
def atBoundary (p : Option Char) (s : List Char) : Bool :=
  let before := match p with | some c => isWordChar c | none => false
  let after := match s with | c :: _ => isWordChar c | [] => false
  before != after

/- The continuation-passing backtracking matcher: Python leftmost-first,
greedy semantics.  p is the character just before the current position
(needed for word boundaries), s is the remaining input. -/
def mtch {α : Type} (ic : Bool) : Regex → Option Char → List Char → (Option Char → List Char → Option α) → Option α
  | .eps, p, s, k => k p s
  | .cls c, _, s, k =>
      match s with
      | [] => none
      | ch :: t => if clsMatch ic c ch then k (some ch) t else none
  | .lit l, p, s, k =>
      match litMatch ic l p s with
      | some (p2, s2) => k p2 s2
      | none => none
  | .seq a b, p, s, k => mtch ic a p s (fun p2 s2 => mtch ic b p2 s2 k)
  | .alt a b, p, s, k => (mtch ic a p s k).orElse (fun _ => mtch ic b p s k)
  | .opt a, p, s, k => (mtch ic a p s k).orElse (fun _ => k p s)
  | .rep c lo hi, p, s, k =>
      let avail := maxCls ic c s
      let start := match hi with | some h => Nat.min h avail | none => avail
      repTry ic c lo k p s start
  | .wb, p, s, k => if atBoundary p s then k p s else none
  | .eos, p, s, k =>
      match s with
      | [] => k p s
      | [c] => if c = '\n' then k p s else none
      | _ => none
  | .look a, p, s, k =>
      match mtch (α := Unit) ic a p s (fun _ _ => some ()) with
      | some _ => k p s
      | none => none

/- re.findall match count: scan left to right over non-overlapping matches. -/
def countAux (ic : Bool) (r : Regex) : Nat → Option Char → List Char → Nat
  | 0, _, _ => 0
  | fuel + 1, p, s =>
      match mtch ic r p s (fun p2 s2 => some (p2, s2)) with
      | some (p2, s2) =>
          if s2.length = s.length then
            1 + (match s with
                 | [] => 0
                 | c :: t => countAux ic r fuel (some c) t)
          else 1 + countAux ic r fuel p2 s2
      | none =>
          match s with
          | [] => 0
          | c :: t => countAux ic r fuel (some c) t

def countRe (ic : Bool) (r : Regex) (s : String) : Nat :=
  countAux ic r (s.data.length + 1) none s.data

/- re.sub: replace every non-overlapping leftmost match by repl. -/
def subAux (ic : Bool) (r : Regex) (repl : List Char) : Nat → Option Char → List Char → List Char
  | 0, _, s => s
  | fuel + 1, p, s =>
      match mtch ic r p s (fun p2 s2 => some (p2, s2)) with
      | some (p2, s2) =>
          if s2.length = s.length then
            repl ++ (match s with
                     | [] => []
                     | c :: t => c :: subAux ic r repl fuel (some c) t)
          else repl ++ subAux ic r repl fuel p2 s2
      | none =>
          match s with
          | [] => []
          | c :: t => c :: subAux ic r repl fuel (some c) t

def subRe (ic : Bool) (r : Regex) (repl s : String) : String :=
  String.mk (subAux ic r repl.data (s.data.length + 1) none s.data)

/- re.split: the pieces of s between non-overlapping leftmost matches. -/
def splitAux (ic : Bool) (r : Regex) : Nat → Option Char → List Char → List Char → List (List Char)
  | 0, _, s, cur => [cur.reverse ++ s]
  | fuel + 1, p, s, cur =>
      match mtch ic r p s (fun p2 s2 => some (p2, s2)) with
      | some (p2, s2) =>
          if s2.length = s.length then
            match s with
            | [] => [cur.reverse, []]
            | c :: t => cur.reverse :: splitAux ic r fuel (some c) t [c]
          else cur.reverse :: splitAux ic r fuel p2 s2 []
      | none =>
          match s with
          | [] => [cur.reverse]
          | c :: t => splitAux ic r fuel (some c) t (c :: cur)

def splitRe (ic : Bool) (r : Regex) (s : String) : List String :=
  (splitAux ic r (s.data.length + 1) none s.data []).map String.mk

/- re.search for a pattern of shape pre (grp): find the leftmost match and
return (group 0, group 1).  A pattern without a group uses grp = eps, in
which case group 1 is the empty string. -/
def searchAux (ic : Bool) (pre grp : Regex) : Nat → Option Char → List Char → Option (List Char × List Char × List Char)
  | 0, _, _ => none
  | fuel + 1, p, s =>
      match mtch ic pre p s (fun p1 s1 => mtch ic grp p1 s1 (fun _ s2 => some (s1, s2))) with
      | some (s1, s2) => some (s, s1, s2)
      | none =>
          match s with
          | [] => none
          | c :: t => searchAux ic pre grp fuel (some c) t

def searchGrpRe (ic : Bool) (pre grp : Regex) (s : String) : Option (String × String) :=
  match searchAux ic pre grp (s.data.length + 1) none s.data with
  | some (s0, s1, s2) =>
      some (String.mk (s0.take (s0.length - s2.length)), String.mk (s1.take (s1.length - s2.length)))
  | none => none

/-
PII masking engine, from src/pii_masker.py (class PIIMasker).
Every re call in that file passes re.IGNORECASE, so ic = true throughout.
-/

/- Shared character classes, mirrors of the bracket expressions in the source. -/

def digitC : CharClass := ⟨false, [.digit]⟩
def wordC : CharClass := ⟨false, [.word]⟩
def spaceC : CharClass := ⟨false, [.space]⟩
-- the dot metacharacter: any char except a newline
def dotC : CharClass := ⟨true, [.chr '\n']⟩
-- [A-Za-z0-9._%+-]
def emailLocalC : CharClass :=
  ⟨false, [.rng 'A' 'Z', .rng 'a' 'z', .rng '0' '9', .chr '.', .chr '_', .chr '%', .chr '+', .chr '-']⟩
-- [A-Za-z0-9.-]
def emailDomC : CharClass := ⟨false, [.rng 'A' 'Z', .rng 'a' 'z', .rng '0' '9', .chr '.', .chr '-']⟩
-- [A-Z|a-z]   (the source class literally contains the pipe character)
def emailTldC : CharClass := ⟨false, [.rng 'A' 'Z', .chr '|', .rng 'a' 'z']⟩
-- [A-Z0-9]
def upAlnumC : CharClass := ⟨false, [.rng 'A' 'Z', .rng '0' '9']⟩
-- [A-Z]
def azUpC : CharClass := ⟨false, [.rng 'A' 'Z']⟩
-- [a-z]
def azLoC : CharClass := ⟨false, [.rng 'a' 'z']⟩
-- [A-Za-z0-9\s]
def alnumSpC : CharClass := ⟨false, [.rng 'A' 'Z', .rng 'a' 'z', .rng '0' '9', .space]⟩
-- [\s-]
def spDashC : CharClass := ⟨false, [.space, .chr '-']⟩
-- [:\s]
def colonSpC : CharClass := ⟨false, [.chr ':', .space]⟩
-- [\w\d]
def wordDC : CharClass := ⟨false, [.word, .digit]⟩
-- [\w\d-]
def wordDashC : CharClass := ⟨false, [.word, .digit, .chr '-']⟩
-- [^.]
def notDotC : CharClass := ⟨true, [.chr '.']⟩
-- [^\n]
def notNlC : CharClass := ⟨true, [.chr '\n']⟩
-- [A-Z0-9_]
def upAlnumUsC : CharClass := ⟨false, [.rng 'A' 'Z', .rng '0' '9', .chr '_']⟩

/- self.pii_patterns, in the dict's declaration order. -/

-- r'\b\d{3}-\d{3}-\d{4}\b'                              555-123-4567
def rePhone1 : Regex := rseq
  [.wb, .rep digitC 3 (some 3), rstr "-", .rep digitC 3 (some 3), rstr "-", .rep digitC 4 (some 4), .wb]

-- r'\b\(\d{3}\)\s*\d{3}-\d{4}\b'                        (555) 123-4567
def rePhone2 : Regex := rseq
  [.wb, rstr "(", .rep digitC 3 (some 3), rstr ")", .rep spaceC 0 none,
   .rep digitC 3 (some 3), rstr "-", .rep digitC 4 (some 4), .wb]

-- r'\b\d{3}\.\d{3}\.\d{4}\b'                            555.123.4567
def rePhone3 : Regex := rseq
  [.wb, .rep digitC 3 (some 3), rstr ".", .rep digitC 3 (some 3), rstr ".", .rep digitC 4 (some 4), .wb]

-- r'\b\d{10}\b'                                         5551234567
def rePhone4 : Regex := rseq [.wb, .rep digitC 10 (some 10), .wb]

-- r'\b[A-Za-z0-9._%+-]+@[A-Za-z0-9.-]+\.[A-Z|a-z]{2,}\b'
def reEmail : Regex := rseq
  [.wb, .rep emailLocalC 1 none, rstr "@", .rep emailDomC 1 none, rstr ".", .rep emailTldC 2 none, .wb]

-- r'\b\d{10,15}\b'                                      10-15 digit account numbers
def reAccount1 : Regex := rseq [.wb, .rep digitC 10 (some 15), .wb]

-- r'\b[A-Z0-9]{8,12}\b'                                 alphanumeric account IDs
def reAccount2 : Regex := rseq [.wb, .rep upAlnumC 8 (some 12), .wb]

-- r'\b\d{15}\b'                                         15-digit IMEI
def reImei : Regex := rseq [.wb, .rep digitC 15 (some 15), .wb]

-- r'\b\d{4}[\s-]?\d{4}[\s-]?\d{4}[\s-]?\d{4}\b'         credit card patterns
def reCreditCard : Regex := rseq
  [.wb, .rep digitC 4 (some 4), .opt (.cls spDashC), .rep digitC 4 (some 4), .opt (.cls spDashC),
   .rep digitC 4 (some 4), .opt (.cls spDashC), .rep digitC 4 (some 4), .wb]

-- r'\b\d{3}-\d{2}-\d{4}\b'                              SSN format
def reSsn : Regex := rseq
  [.wb, .rep digitC 3 (some 3), rstr "-", .rep digitC 2 (some 2), rstr "-", .rep digitC 4 (some 4), .wb]

-- r'\b(?:Agent|Customer):\s*[A-Z][a-z]+\s+[A-Z][a-z]+\b'
def reNames1 : Regex := rseq
  [.wb, .alt (rstr "Agent") (rstr "Customer"), rstr ":", .rep spaceC 0 none,
   .cls azUpC, .rep azLoC 1 none, .rep spaceC 1 none, .cls azUpC, .rep azLoC 1 none, .wb]

-- r'\b[A-Z][a-z]+\s+[A-Z][a-z]+(?=\s+(?:said|called|from))\b'
def reNames2 : Regex := rseq
  [.wb, .cls azUpC, .rep azLoC 1 none, .rep spaceC 1 none, .cls azUpC, .rep azLoC 1 none,
   .look (rseq [.rep spaceC 1 none, raltList [rstr "said", rstr "called", rstr "from"]]), .wb]

-- r'\b\d+\s+[A-Za-z0-9\s]+(?:Street|St|Avenue|Ave|Road|Rd|Drive|Dr|Lane|Ln|Boulevard|Blvd|Way|Place|Pl)\b'
def reAddress1 : Regex := rseq
  [.wb, .rep digitC 1 none, .rep spaceC 1 none, .rep alnumSpC 1 none,
   raltList [rstr "Street", rstr "St", rstr "Avenue", rstr "Ave", rstr "Road", rstr "Rd",
             rstr "Drive", rstr "Dr", rstr "Lane", rstr "Ln", rstr "Boulevard", rstr "Blvd",
             rstr "Way", rstr "Place", rstr "Pl"], .wb]

-- r'\b\d{5}(?:-\d{4})?\b'                               ZIP codes
def reAddress2 : Regex := rseq
  [.wb, .rep digitC 5 (some 5), .opt (rseq [rstr "-", .rep digitC 4 (some 4)]), .wb]

/- The pii_patterns dict, in declaration order. -/
def piiPatterns : List (String × List Regex) :=
  [("phone_numbers", [rePhone1, rePhone2, rePhone3, rePhone4]),
   ("emails", [reEmail]),
   ("account_numbers", [reAccount1, reAccount2]),
   ("imei_numbers", [reImei]),
   ("credit_cards", [reCreditCard]),
   ("ssn", [reSsn]),
   ("names", [reNames1, reNames2]),
   ("addresses", [reAddress1, reAddress2])]

/- The replacements dict. -/
def replacements : List (String × String) :=
  [("phone_numbers", "[PHONE_NUMBER]"),
   ("emails", "[EMAIL_ADDRESS]"),
   ("account_numbers", "[ACCOUNT_NUMBER]"),
   ("imei_numbers", "[DEVICE_ID]"),
   ("credit_cards", "[CREDIT_CARD]"),
   ("ssn", "[SSN]"),
   ("names", "[CUSTOMER_NAME]"),
   ("addresses", "[ADDRESS]")]

def replLookup (name : String) : String :=
  match replacements.find? (fun kv => kv.1 == name) with
  | some kv => kv.2
  | none => ""

/- Per-category counters, a mirror of the pii_counts dict keyed in pattern order. -/
def PiiCounts : Type := List (String × Nat)

instance : DecidableEq PiiCounts :=
  inferInstanceAs (DecidableEq (List (String × Nat)))

def zeroCounts : PiiCounts := piiPatterns.map (fun kv => (kv.1, 0))

def lookupCount (k : String) (c : PiiCounts) : Nat :=
  match c.find? (fun kv => kv.1 == k) with
  | some kv => kv.2
  | none => 0

/- pii_found accumulation: for pii_type, count in field_pii.items():
   pii_found[pii_type] += count. -/
def addCounts (acc c : PiiCounts) : PiiCounts :=
  acc.map (fun kv => (kv.1, kv.2 + lookupCount kv.1 c))

def bumpCount (acc : PiiCounts) (name : String) (n : Nat) : PiiCounts :=
  acc.map (fun kv => if kv.1 == name then (kv.1, kv.2 + n) else kv)

/- Inner loop of _mask_text over one category's pattern list: count with
re.findall on the current text, then substitute. -/
def maskPats (repl : String) : List Regex → List Char → Nat → List Char × Nat
  | [], s, cnt => (s, cnt)
  | p :: rest, s, cnt =>
      let c := countAux true p (s.length + 1) none s
      let s2 := subAux true p repl.data (s.length + 1) none s
      maskPats repl rest s2 (cnt + c)

/- Outer loop of _mask_text over the category dict. -/
def maskCatList : List (String × List Regex) → List Char → PiiCounts → List Char × PiiCounts
  | [], s, acc => (s, acc)
  | (name, pats) :: rest, s, acc =>
      let repl := replLookup name
      let r := maskPats repl pats s 0
      maskCatList rest r.1 (bumpCount acc name r.2)

/- _mask_telecom_specific: the telecom_patterns dict, applied in order. -/

-- r'\b(SIM|sim)\s*(card\s*)?number[:\s]+[\w\d]+'  ->  [SIM_NUMBER]
def reTelecomSim : Regex := rseq
  [.wb, .alt (rstr "SIM") (rstr "sim"), .rep spaceC 0 none,
   .opt (rseq [rstr "card", .rep spaceC 0 none]), rstr "number", .rep colonSpC 1 none, .rep wordDC 1 none]

-- r'\bactivation\s*code[:\s]+[\w\d]+'  ->  [ACTIVATION_CODE]
def reTelecomActivation : Regex := rseq
  [.wb, rstr "activation", .rep spaceC 0 none, rstr "code", .rep colonSpC 1 none, .rep wordDC 1 none]

-- r'\bport\s*request[:\s]+[\w\d-]+'  ->  [PORT_REQUEST_ID]
def reTelecomPort : Regex := rseq
  [.wb, rstr "port", .rep spaceC 0 none, rstr "request", .rep colonSpC 1 none, .rep wordDashC 1 none]

-- r'\btrade-in\s*reference[:\s]+[\w\d-]+'  ->  [TRADE_IN_ID]
def reTelecomTradeIn : Regex := rseq
  [.wb, rstr "trade-in", .rep spaceC 0 none, rstr "reference", .rep colonSpC 1 none, .rep wordDashC 1 none]

-- r'\border\s*confirmation[:\s]+[\w\d-]+'  ->  [ORDER_ID]
def reTelecomOrder : Regex := rseq
  [.wb, rstr "order", .rep spaceC 0 none, rstr "confirmation", .rep colonSpC 1 none, .rep wordDashC 1 none]

-- r'\bbilling\s*address[:\s]+[^.]+\.'  ->  [BILLING_ADDRESS].
def reTelecomBilling : Regex := rseq
  [.wb, rstr "billing", .rep spaceC 0 none, rstr "address", .rep colonSpC 1 none, .rep notDotC 1 none, rstr "."]

-- r'\bZIP\s*code[:\s]+\d{5}'  ->  [ZIP_CODE]
def reTelecomZip : Regex := rseq
  [.wb, rstr "ZIP", .rep spaceC 0 none, rstr "code", .rep colonSpC 1 none, .rep digitC 5 (some 5)]

def telecomPatterns : List (Regex × String) :=
  [(reTelecomSim, "[SIM_NUMBER]"),
   (reTelecomActivation, "[ACTIVATION_CODE]"),
   (reTelecomPort, "[PORT_REQUEST_ID]"),
   (reTelecomTradeIn, "[TRADE_IN_ID]"),
   (reTelecomOrder, "[ORDER_ID]"),
   (reTelecomBilling, "[BILLING_ADDRESS]."),
   (reTelecomZip, "[ZIP_CODE]")]

def maskTelecomList : List (Regex × String) → List Char → List Char
  | [], s => s
  | (p, repl) :: rest, s => maskTelecomList rest (subAux true p repl.data (s.length + 1) none s)

/- PIIMasker._mask_telecom_specific. -/
def maskTelecomSpecific (text : String) : String :=
  String.mk (maskTelecomList telecomPatterns text.data)

/- PIIMasker._mask_text: the category pass (findall count then sub, per
pattern, categories in dict order) followed by the telecom pass. -/
def maskText (text : String) : String × PiiCounts :=
  if text = "" then (text, zeroCounts)
  else
    let r := maskCatList piiPatterns text.data zeroCounts
    (String.mk (maskTelecomList telecomPatterns r.1), r.2)

/-
The transcript record, from TranscriptParser._parse_single_call: all parsed
records carry exactly these keys (strings, plus the raw_text_length count).
-/
structure Transcript where
  call_id : String
  channel : String
  date : String
  category : String
  severity : String
  journey_type : String
  transcript : String
  resolution : String
  impact : String
  root_cause : String
  raw_text_length : Nat
deriving DecidableEq

/- PIIMasker._mask_single_transcript: the fields_to_mask loop body for one
field ('if field in masked and masked[field]' - all fields are present, so
the guard is Python truthiness, i.e. non-emptiness). -/
def maskField (s : String) (acc : PiiCounts) : String × PiiCounts :=
  if s = "" then (s, acc)
  else
    let r := maskText s
    (r.1, addCounts acc r.2)

/- PIIMasker._mask_single_transcript: mask transcript, resolution, impact,
root_cause (accumulating pii_found), then mask call_id discarding its
counts ('masked_call_id, _ = self._mask_text(call_id)'). -/
def maskSingleTranscript (t : Transcript) : Transcript × PiiCounts :=
  let f1 := maskField t.transcript zeroCounts
  let f2 := maskField t.resolution f1.2
  let f3 := maskField t.impact f2.2
  let f4 := maskField t.root_cause f3.2
  ({ t with
      transcript := f1.1
      resolution := f2.1
      impact := f3.1
      root_cause := f4.1
      call_id := (maskText t.call_id).1 }, f4.2)

/-
Document segmentation, from TranscriptParser._parse_text_content.
-/

-- r'(?i)call\s+tw_\w+_\d+'          Call TW_TASORA_001
def reSep1 : Regex := rseq
  [rstr "call", .rep spaceC 1 none, rstr "tw_", .rep wordC 1 none, rstr "_", .rep digitC 1 none]

-- r'tw_\w+_\d+'                     TW_TASORA_001
def reSep2 : Regex := rseq
  [rstr "tw_", .rep wordC 1 none, rstr "_", .rep digitC 1 none]

-- r'(?i)section\s+\d+'              Section 1
def reSep3 : Regex := rseq [rstr "section", .rep spaceC 1 none, .rep digitC 1 none]

-- r'={3,}'                          ===
def reSep4 : Regex := .rep ⟨false, [.chr '=']⟩ 3 none

-- r'-{10,}'                         ----------
def reSep5 : Regex := .rep ⟨false, [.chr '-']⟩ 10 none

-- r'(?i)transcript\s+\d+'           Transcript 1
def reSep6 : Regex := rseq [rstr "transcript", .rep spaceC 1 none, .rep digitC 1 none]

-- r'\d+\.\s+\w+\s+channel'          1. TASORA Channel
def reSep7 : Regex := rseq
  [.rep digitC 1 none, rstr ".", .rep spaceC 1 none, .rep wordC 1 none, .rep spaceC 1 none, rstr "channel"]

def potentialSeparators : List Regex :=
  [reSep1, reSep2, reSep3, reSep4, reSep5, reSep6, reSep7]

/- valid_splits = [s.strip() for s in test_splits if len(s.strip()) > 300] -/
def validPieces (p : Regex) (content : String) : List String :=
  ((splitRe true p content).map pyStrip).filter (fun s => 300 < s.length)

/- The loop over potential_separators: keep the split with the strictly
greatest number of valid pieces; first pattern achieving the max wins. -/
def segLoop : List Regex → List String → String → List String
  | [], calls, _ => calls
  | p :: ps, calls, content =>
      let valid := validPieces p content
      segLoop ps (if calls.length < valid.length then valid else calls) content

/- TranscriptParser._parse_text_content, up to the point where the list of
sections (calls) is fixed: if no separator yielded any valid piece, the
whole document is one section. -/
def parseTextContentSections (content : String) : List String :=
  let calls := segLoop potentialSeparators [] content
  if calls = [] then [content] else calls

/-
Field extraction, from TranscriptParser.
-/

/- TranscriptParser._extract_call_id patterns, each split as (prefix, group)
so the leftmost match yields group(0) and group(1); the first pattern has
no group (group regex eps), and its group(1) arm is unreachable because its
group(0) always contains TW_. -/

-- r'TW_\w+_\d+'
def reCallId1Pre : Regex := rseq
  [rstr "TW_", .rep wordC 1 none, rstr "_", .rep digitC 1 none]

-- r'Call\s+(\w+_\w+_\d+)'
def reCallId2Pre : Regex := rseq [rstr "Call", .rep spaceC 1 none]
def reCallId2Grp : Regex := rseq
  [.rep wordC 1 none, rstr "_", .rep wordC 1 none, rstr "_", .rep digitC 1 none]

-- r'ID[:\s]+([A-Z0-9_]+)'
def reCallId3Pre : Regex := rseq [rstr "ID", .rep colonSpC 1 none]
def reCallId3Grp : Regex := .rep upAlnumUsC 1 none

def callIdPatterns : List (Regex × Regex) :=
  [(reCallId1Pre, .eps), (reCallId2Pre, reCallId2Grp), (reCallId3Pre, reCallId3Grp)]

/- The pattern loop of _extract_call_id: first pattern with a match returns
group(0) when it contains TW_ (uppercased), otherwise TW_ + group(1). -/
def callIdLoop : List (Regex × Regex) → String → Option String
  | [], _ => none
  | (pre, grp) :: rest, text =>
      match searchGrpRe true pre grp text with
      | some (g0, g1) => some (if strContains (pyUpper g0) "TW_" then g0 else "TW_" ++ g1)
      | none => callIdLoop rest text

/- TranscriptParser._extract_call_id. -/
def extractCallId (text : String) (callNumber : Nat) : String :=
  match callIdLoop callIdPatterns text with
  | some cid => cid
  | none =>
      let lo := pyLower text
      if strContains lo "tasora" then "TW_TASORA_" ++ pad3 callNumber
      else if strContains lo "web" || strContains lo "portal" then "TW_WEB_" ++ pad3 callNumber
      else if strContains lo "app" || strContains lo "mobile" then "TW_APP_" ++ pad3 callNumber
      else if strContains lo "target" then "TW_TARGET_" ++ pad3 callNumber
      else if strContains lo "sms" || strContains lo "bot" then "TW_SMS_" ++ pad3 callNumber
      else "TW_UNKNOWN_" ++ pad3 callNumber

/- TranscriptParser._extract_channel; text_lower and call_id_upper are
inlined. -/
def extractChannel (text callId : String) : String :=
  if strContains (pyUpper callId) "TASORA" || strContains (pyLower text) "tasora" then "TASORA"
  else if strContains (pyUpper callId) "WEB" || strContains (pyLower text) "web portal" || strContains (pyLower text) "website" then "Web Portal"
  else if strContains (pyUpper callId) "APP" || strContains (pyLower text) "mobile app" || strContains (pyLower text) "application" then "Mobile App"
  else if strContains (pyUpper callId) "TARGET" || strContains (pyLower text) "target" then "Target"
  else if strContains (pyUpper callId) "SMS" || strContains (pyLower text) "sms" || strContains (pyLower text) "bot" || strContains (pyLower text) "ivr" then "SMS/Bot/IVR"
  else "Unknown"

/- TranscriptParser._extract_field: for each label, search
rf'{pattern}\s*([^\n]+)' case-insensitively and return group(1).strip(). -/
def extractField (text : String) : List String → String
  | [] => ""
  | label :: rest =>
      match searchGrpRe true (rseq [rstr label, .rep spaceC 0 none]) (.rep notNlC 1 none) text with
      | some (_, g1) => pyStrip g1
      | none => extractField text rest

/-
Field normalization, from src/data_cleaner.py (class DataCleaner).
-/

-- r'\s*Severity:.*$'
def reCatSeverity : Regex := rseq [.rep spaceC 0 none, rstr "Severity:", .rep dotC 0 none, .eos]
-- r'\s*TRANSCRIPT:.*$'
def reCatTranscriptLbl : Regex := rseq [.rep spaceC 0 none, rstr "TRANSCRIPT:", .rep dotC 0 none, .eos]
-- r'\s*Agent:.*$'
def reCatAgent : Regex := rseq [.rep spaceC 0 none, rstr "Agent:", .rep dotC 0 none, .eos]
-- r'\s*High\s*$'
def reCatHigh : Regex := rseq [.rep spaceC 0 none, rstr "High", .rep spaceC 0 none, .eos]
-- r'\s*Medium\s*$'
def reCatMedium : Regex := rseq [.rep spaceC 0 none, rstr "Medium", .rep spaceC 0 none, .eos]
-- r'\s*Low\s*$'
def reCatLow : Regex := rseq [.rep spaceC 0 none, rstr "Low", .rep spaceC 0 none, .eos]
-- r'\s*Category:.*$'
def reSevCategory : Regex := rseq [.rep spaceC 0 none, rstr "Category:", .rep dotC 0 none, .eos]

/- The category_mapping dict in declaration order. -/
def categoryMapping : List (String × String) :=
  [("plan change", "Plan Change"),
   ("device activation", "Device Activation"),
   ("billing dispute", "Billing Dispute"),
   ("device purchase", "Device Purchase"),
   ("account management", "Account Management"),
   ("promotional offers", "Promotional Offers"),
   ("data usage tracking", "Data Usage Tracking"),
   ("device upgrade", "Device Upgrade"),
   ("auto-pay management", "Auto-Pay Management"),
   ("auto pay management", "Auto-Pay Management"),
   ("sim card activation", "SIM Card Activation"),
   ("promotional pricing", "Promotional Pricing"),
   ("device return", "Device Return"),
   ("data usage alerts", "Data Usage Alerts"),
   ("service commands", "Service Commands"),
   ("balance inquiry", "Balance Inquiry")]

/- The for key, value in category_mapping.items() loop with early return. -/
def catLookupLoop : List (String × String) → String → Option String
  | [], _ => none
  | (k, v) :: rest, l => if strContains l k then some v else catLookupLoop rest l

/- The contamination-stripping sub chain of _clean_category followed by the
strip() producing category_clean. -/
def catCore (category : String) : String :=
  pyStrip (subRe true reCatLow ""
    (subRe true reCatMedium ""
      (subRe true reCatHigh ""
        (subRe true reCatAgent ""
          (subRe true reCatTranscriptLbl ""
            (subRe true reCatSeverity "" category))))))

/- DataCleaner._clean_category. -/
def cleanCategory (category : String) : String :=
  if category = "" then ""
  else
    match catLookupLoop categoryMapping (pyLower (catCore category)) with
    | some v => v
    | none => if catCore category = "" then "Unknown" else catCore category

/- The contamination-stripping sub chain of _clean_severity followed by the
strip().title() producing severity_clean. -/
def sevCore (severity : String) : String :=
  pyTitle (pyStrip (subRe true reSevCategory ""
    (subRe true reCatAgent ""
      (subRe true reCatTranscriptLbl "" severity))))

/- DataCleaner._clean_severity. -/
def cleanSeverity (severity : String) : String :=
  if severity = "" then ""
  else if strContains (pyLower (sevCore severity)) "high" then "High"
  else if strContains (pyLower (sevCore severity)) "medium" then "Medium"
  else if strContains (pyLower (sevCore severity)) "low" then "Low"
  else if strContains (pyLower (sevCore severity)) "critical" then "Critical"
  else if sevCore severity = "" then "Medium"
  else sevCore severity

/-
Batch processing, from PIIMasker.mask_data and TranscriptParser
_parse_text_content / parse_pdf.  In the source, neither loop has a
per-item try/except: the single try in mask_data wraps the whole loop (an
exception anywhere makes mask_data return False, writing nothing), and the
single try in parse_pdf wraps everything and returns [] on an exception.
The per-record work (_mask_single_transcript, _parse_single_call) is pure
regex code and cannot actually raise, so the exception behaviour is
modelled by parametrising the loops over an Except-valued per-item
function whose error constructor stands for a raised exception.
-/

/- The mask_data loop over transcripts, inside the function's single try:
the first error aborts the whole computation (mask_data returns False). -/
def maskLoopTry (maskOne : Transcript → Except String (Transcript × PiiCounts)) :
    List Transcript → List Transcript → PiiCounts → Except String (List Transcript × PiiCounts)
  | [], acc, stats => Except.ok (acc.reverse, stats)
  | t :: rest, acc, stats =>
      match maskOne t with
      | Except.error e => Except.error e
      | Except.ok (m, c) => maskLoopTry maskOne rest (m :: acc) (addCounts stats c)

def maskDataCore (maskOne : Transcript → Except String (Transcript × PiiCounts))
    (ts : List Transcript) : Except String (List Transcript × PiiCounts) :=
  maskLoopTry maskOne ts [] zeroCounts

/- The _parse_text_content loop over sections (with its skip of sections
whose stripped length is below 100), inside parse_pdf's try. -/
def parseLoopGo (parseOne : String → Except String Transcript) :
    List String → List Transcript → Except String (List Transcript)
  | [], acc => Except.ok acc.reverse
  | s :: rest, acc =>
      if (pyStrip s).length < 100 then parseLoopGo parseOne rest acc
      else
        match parseOne s with
        | Except.error e => Except.error e
        | Except.ok r => parseLoopGo parseOne rest (r :: acc)

/- parse_pdf: except Exception: return []. -/
def parseTryAll (parseOne : String → Except String Transcript) (sections : List String) : List Transcript :=
  match parseLoopGo parseOne sections [] with
  | Except.ok l => l
  | Except.error _ => []

/-
Spec-side definitions: each of the following is written to the spec's (or
the amended claim's) words, to be compared with the definitions translated
from the source.
-/

/- The eight category placeholder tokens and the seven telecom-pass tokens. -/
def placeholderTokens : List String :=
  ["[PHONE_NUMBER]", "[EMAIL_ADDRESS]", "[ACCOUNT_NUMBER]", "[DEVICE_ID]",
   "[CREDIT_CARD]", "[SSN]", "[CUSTOMER_NAME]", "[ADDRESS]",
   "[SIM_NUMBER]", "[ACTIVATION_CODE]", "[PORT_REQUEST_ID]", "[TRADE_IN_ID]",
   "[ORDER_ID]", "[BILLING_ADDRESS]", "[ZIP_CODE]"]

/- Greatest number of valid pieces over the candidate splits. -/
def maxLenL (ls : List (List String)) : Nat :=
  ls.foldr (fun v a => Nat.max v.length a) 0

/- Declarative reading of the segmenter (amended claim): evaluate every
candidate, take the split of the first candidate attaining the maximum
count of valid (strictly over-300-character) pieces, fall back to the
whole document when the maximum is zero. -/
def segmentSpec (content : String) : List String :=
  let ls := potentialSeparators.map (fun p => validPieces p content)
  if maxLenL ls = 0 then [content]
  else
    match ls.find? (fun v => v.length == maxLenL ls) with
    | some v => v
    | none => [content]

/- The claim's reading of the piece filter: pieces of trimmed length AT
LEAST 300 are kept (the code keeps only strictly more than 300). -/
def validPiecesClaim (p : Regex) (content : String) : List String :=
  ((splitRe true p content).map pyStrip).filter (fun s => 300 ≤ s.length)

/- The claim's segmenter: same first-maximum selection over the claim's
piece filter. -/
def segmentClaimSpec (content : String) : List String :=
  let ls := potentialSeparators.map (fun p => validPiecesClaim p content)
  if maxLenL ls = 0 then [content]
  else
    match ls.find? (fun v => v.length == maxLenL ls) with
    | some v => v
    | none => [content]

/- The pure fold underlying the segmentation loop. -/
def segFold : List (List String) → List String → List String
  | [], acc => acc
  | v :: t, acc => segFold t (if acc.length < v.length then v else acc)

/- Amended severity table: containment is tested in the order high, medium,
low, critical (not the claim's critical-first order). -/
def sevKeywords : List (String × String) :=
  [("high", "High"), ("medium", "Medium"), ("low", "Low"), ("critical", "Critical")]

/- Amended reading of _clean_severity: first keyword (in the above order)
contained in the lower-cased cleaned value wins; an unmatched non-empty
value is returned stripped and title-cased; a value cleaned to emptiness
becomes Medium; the empty input stays empty. -/
def sevSpec (s : String) : String :=
  if s = "" then ""
  else
    match sevKeywords.find? (fun kv => strContains (pyLower (sevCore s)) kv.1) with
    | some kv => kv.2
    | none => if sevCore s = "" then "Medium" else sevCore s

/- Amended reading of _clean_category: first table key contained in the
lower-cased cleaned value wins; an unmatched non-empty value is returned
stripped (not title-cased); a value cleaned to emptiness becomes Unknown;
the empty input stays empty. -/
def catSpec (s : String) : String :=
  if s = "" then ""
  else
    match categoryMapping.find? (fun kv => strContains (pyLower (catCore s)) kv.1) with
    | some kv => kv.2
    | none => if catCore s = "" then "Unknown" else catCore s

/- Amended channel derivation table: one pass in priority order, each level
matching on the call id's uppercase token or on that level's literal text
keywords (which are web portal / website and mobile app / application, not
the bare portal / app keywords of call-id synthesis). -/
def channelKeywordTable : List (String × List String × String) :=
  [("TASORA", ["tasora"], "TASORA"),
   ("WEB", ["web portal", "website"], "Web Portal"),
   ("APP", ["mobile app", "application"], "Mobile App"),
   ("TARGET", ["target"], "Target"),
   ("SMS", ["sms", "bot", "ivr"], "SMS/Bot/IVR")]

def chanLookup : List (String × List String × String) → String → String → String
  | [], _, _ => "Unknown"
  | (idTok, kws, val) :: rest, tl, cu =>
      if strContains cu idTok || kws.any (fun kw => strContains tl kw) then val
      else chanLookup rest tl cu

def channelSpec (text callId : String) : String :=
  chanLookup channelKeywordTable (pyLower text) (pyUpper callId)

/- The per-record tally of _mask_single_transcript accumulates over exactly
the four maskable free-text fields. -/
def fieldTally (t : Transcript) : PiiCounts :=
  [t.transcript, t.resolution, t.impact, t.root_cause].foldl
    (fun acc s => (maskField s acc).2) zeroCounts

/- Concrete inputs for the batch-abort counterexample. -/
def tGood : Transcript :=
  { call_id := "TW_WEB_001", channel := "Web Portal", date := "", category := "",
    severity := "", journey_type := "", transcript := "", resolution := "",
    impact := "", root_cause := "", raw_text_length := 0 }

def tBad : Transcript := { tGood with call_id := "BAD" }

/- A per-record masking function that raises on the record with call id
BAD, standing for the unexpected exception of the claim. -/
def failOnBad : Transcript → Except String (Transcript × PiiCounts) :=
  fun t => if t.call_id = "BAD" then Except.error "mask exception" else Except.ok (t, zeroCounts)

/- The concrete document for the segmentation threshold counterexample: a
301-character block and a 300-character block joined by the === separator. -/
def c2doc : String :=
  String.mk (List.replicate 301 'a') ++ "===" ++ String.mk (List.replicate 300 'b')

/-
Theorems.
-/

theorem find?_cons_true {α : Type} (p : α → Bool) (a : α) (l : List α) (h : p a = true) :
    (a :: l).find? p = some a := by
  simp [List.find?, h]

theorem find?_cons_false {α : Type} (p : α → Bool) (a : α) (l : List α) (h : p a = false) :
    (a :: l).find? p = l.find? p := by
  simp [List.find?, h]

theorem catLookupLoop_eq_find (m : List (String × String)) (l : String) :
    catLookupLoop m l = (m.find? (fun kv => strContains l kv.1)).map Prod.snd := by
  induction m with
  | nil => rfl
  | cons kv rest ih =>
    obtain ⟨k, v⟩ := kv
    cases h : strContains l k
    · rw [catLookupLoop, if_neg (by simp [h]), find?_cons_false _ _ _ (by simpa using h), ih]
    · rw [catLookupLoop, if_pos (by simp [h]), find?_cons_true _ _ _ (by simpa using h)]
      rfl

/-- C1: the claim asserts that masking is idempotent on every input text.
The placeholder tokens are indeed inert (see the amended theorem below),
but idempotence itself fails: this theorem exhibits a concrete text on
which the telecom pass consumes only a prefix of a digit run, creating a
fresh word boundary, so that the remainder matches the 10-to-15-digit
account pattern on the second application and re-masking alters
already-masked text. -/
theorem C1_mask_not_idempotent :
    (maskText (maskText "ZIP code:12345678901234567").1).1 ≠ (maskText "ZIP code:12345678901234567").1 ∧
    maskText "ZIP code:12345678901234567" = ("[ZIP_CODE]678901234567", zeroCounts) ∧
    (maskText "[ZIP_CODE]678901234567").1 = "[ZIP_CODE][ACCOUNT_NUMBER]" := by
  exact ⟨by decide, by decide, by decide⟩

/-- C1 amended: no category placeholder token and no telecom-pass token
matches any PII detection pattern, so masking a placeholder token leaves
it unchanged with an all-zero tally; full idempotence of masking on
arbitrary text does not hold (see the counterexample). -/
theorem C1_placeholder_tokens_inert :
    placeholderTokens.map (fun t => maskText t) =
      placeholderTokens.map (fun t => (t, zeroCounts)) := by
  decide

/-- C3: the claim asserts that a section with no recognizable severity
label (so the extracted raw severity is the empty string) normalizes to
Medium.  In the code _clean_severity returns the empty string on empty
input, so the claim fails on a concrete label-free section. -/
theorem C3_counterexample :
    extractField "The system shows an error code. Please retry the request later." ["severity:", "priority:", "level:"] = "" ∧
    cleanSeverity "" = "" ∧
    ("" : String) ≠ "Medium" := by
  exact ⟨by decide, rfl, by decide⟩

/-- C3 amended: the empty raw severity normalizes to the empty string, and
the Medium default fires exactly for the non-empty raw values whose
contamination-stripped, trimmed form is empty. -/
theorem C3_empty_severity_default :
    cleanSeverity "" = "" ∧
    (∀ s : String, s ≠ "" → sevCore s = "" → cleanSeverity s = "Medium") := by
  refine ⟨rfl, fun s hs hcore => ?_⟩
  unfold cleanSeverity
  rw [if_neg hs, hcore]
  decide

/-- C3 witness: the blank severity value is non-empty yet strips to
nothing, and normalizes to Medium via the amended theorem. -/
theorem C3_witness : (" " : String) ≠ "" ∧ cleanSeverity " " = "Medium" :=
  ⟨by decide, C3_empty_severity_default.2 " " (by decide) (by decide)⟩

/-- C4: the claim asserts normalize_category of the empty string is
Unknown; the code returns the empty string on empty input. -/
theorem C4_counterexample :
    cleanCategory "" = "" ∧ ("" : String) ≠ "Unknown" := by
  exact ⟨rfl, by decide⟩

/-- C4 amended: category normalization is a case-insensitive substring
lookup with the first matching table key winning, so device activation
issue maps to Device Activation; but the empty input maps to the empty
string (not Unknown), an unmatched non-empty input is returned stripped
as-is (not title-cased), and Unknown arises exactly when a non-empty
input is emptied by contamination stripping. -/
theorem C4_category_normalization :
    (∀ s : String, cleanCategory s = catSpec s) ∧
    cleanCategory "device activation issue" = "Device Activation" ∧
    cleanCategory "" = "" ∧
    cleanCategory "weird stuff" = "weird stuff" ∧
    cleanCategory "High" = "Unknown" := by
  refine ⟨fun s => ?_, by decide, rfl, by decide, by decide⟩
  unfold cleanCategory catSpec
  by_cases h : s = ""
  · simp [h]
  · rw [if_neg h, if_neg h, catLookupLoop_eq_find]
    cases categoryMapping.find? (fun kv => strContains (pyLower (catCore s)) kv.1) <;> rfl

/-- C5: on the text Call me at 555-123-4567 or email a@b.com, the masked
output contains the phone and email placeholder tokens, the per-category
tally is exactly one phone and one email, and the masked output matches
none of the four phone detection regexes nor the email regex. -/
theorem C5_pii_coverage :
    maskText "Call me at 555-123-4567 or email a@b.com" =
      ("Call me at [PHONE_NUMBER] or email [EMAIL_ADDRESS]",
       [("phone_numbers", 1), ("emails", 1), ("account_numbers", 0), ("imei_numbers", 0),
        ("credit_cards", 0), ("ssn", 0), ("names", 0), ("addresses", 0)]) ∧
    strContains "Call me at [PHONE_NUMBER] or email [EMAIL_ADDRESS]" "[PHONE_NUMBER]" = true ∧
    strContains "Call me at [PHONE_NUMBER] or email [EMAIL_ADDRESS]" "[EMAIL_ADDRESS]" = true ∧
    [rePhone1, rePhone2, rePhone3, rePhone4, reEmail].map
      (fun p => countRe true p "Call me at [PHONE_NUMBER] or email [EMAIL_ADDRESS]") = [0, 0, 0, 0, 0] := by
  exact ⟨by decide, by decide, by decide, by decide⟩

/-- C7: the claim asserts that severity containment is tested in the
priority order Critical, High, Medium, Low, so a value containing both
critical and high would normalize to Critical; the code tests high first
and yields High.  The claim also asserts unmatched non-empty values pass
through verbatim; the code returns them stripped and title-cased. -/
theorem C7_counterexample :
    cleanSeverity "critical high" = "High" ∧ ("High" : String) ≠ "Critical" ∧
    cleanSeverity "urgent" = "Urgent" ∧ ("Urgent" : String) ≠ "urgent" := by
  exact ⟨by decide, by decide, by decide, by decide⟩

/-- C7 amended: for every raw severity value the normalization equals the
first-match lookup over the keyword table in the order high, medium, low,
critical, with unmatched non-empty values returned stripped and
title-cased, values stripping to emptiness defaulting to Medium, and the
empty input passing through empty. -/
theorem C7_severity_priority (s : String) : cleanSeverity s = sevSpec s := by
  unfold cleanSeverity sevSpec sevKeywords
  by_cases h0 : s = ""
  · simp [h0]
  · rw [if_neg h0, if_neg h0]
    cases h1 : strContains (pyLower (sevCore s)) "high" <;>
      cases h2 : strContains (pyLower (sevCore s)) "medium" <;>
        cases h3 : strContains (pyLower (sevCore s)) "low" <;>
          cases h4 : strContains (pyLower (sevCore s)) "critical" <;>
            simp [List.find?, h1, h2, h3, h4]

/-- C8: the claim asserts that when the call id carries no channel token,
the channel falls back to the same keyword list as call-id synthesis, so
a section containing the bare keyword portal yields Web Portal.  In the
code the text search uses the narrower keywords web portal and website,
and on a section whose call id comes from the ID: pattern the channel
collapses to Unknown even though the section contains portal. -/
theorem C8_counterexample :
    extractCallId "ID: X77 portal issue" 1 = "TW_X77" ∧
    strContains (pyLower "ID: X77 portal issue") "portal" = true ∧
    extractChannel "ID: X77 portal issue" (extractCallId "ID: X77 portal issue" 1) = "Unknown" ∧
    ("Unknown" : String) ≠ "Web Portal" := by
  exact ⟨by decide, by decide, by decide, by decide⟩

/-- C8 amended: the channel is derived in one pass over the priority table
tasora, web, app, target, sms, each level matching when the upper-cased
call id contains the level token or the lower-cased section text contains
one of that level's literal keywords (web portal or website for Web
Portal, mobile app or application for Mobile App); otherwise Unknown. -/
theorem C8_channel_derivation (text callId : String) :
    extractChannel text callId = channelSpec text callId := by
  unfold extractChannel channelSpec channelKeywordTable
  simp only [chanLookup, List.any_cons, List.any_nil, Bool.or_false, Bool.or_assoc]

/-- C9: masking a record rewrites only the transcript, resolution, impact,
root_cause and call_id fields; the channel, date, category, severity,
journey_type and raw_text_length fields of the masked record are the
original values. -/
theorem C9_mask_frame (t : Transcript) :
    ((maskSingleTranscript t).1).channel = t.channel ∧
    ((maskSingleTranscript t).1).date = t.date ∧
    ((maskSingleTranscript t).1).category = t.category ∧
    ((maskSingleTranscript t).1).severity = t.severity ∧
    ((maskSingleTranscript t).1).journey_type = t.journey_type ∧
    ((maskSingleTranscript t).1).raw_text_length = t.raw_text_length :=
  ⟨rfl, rfl, rfl, rfl, rfl, rfl⟩

/-- C10: the per-record PII tally accumulates only over the transcript,
resolution, impact and root_cause fields; the matches found while
rewriting call_id are discarded, so the tally is invariant under any
change of the call_id field. -/
theorem C10_callid_tally_excluded :
    (∀ t : Transcript, (maskSingleTranscript t).2 = fieldTally t) ∧
    (∀ (t : Transcript) (id1 id2 : String),
        (maskSingleTranscript { t with call_id := id1 }).2 =
          (maskSingleTranscript { t with call_id := id2 }).2) :=
  ⟨fun _ => rfl, fun _ _ _ => rfl⟩

theorem segLoop_eq_segFold (ps : List Regex) (acc : List String) (content : String) :
    segLoop ps acc content = segFold (ps.map (fun p => validPieces p content)) acc := by
  induction ps generalizing acc with
  | nil => rfl
  | cons p rest ih =>
    rw [List.map_cons, segLoop, segFold]
    exact ih _

theorem natMax_left {a b : Nat} (h : b ≤ a) : Nat.max a b = a := Nat.max_eq_left h

theorem natMax_right {a b : Nat} (h : a ≤ b) : Nat.max a b = b := Nat.max_eq_right h

theorem nat_beq_true {a b : Nat} (h : a = b) : (a == b) = true := by simp [h]

theorem nat_beq_false {a b : Nat} (h : a ≠ b) : (a == b) = false := by simp [h]

theorem find_attains (ls : List (List String)) (m : Nat) (hm : maxLenL ls = m) (h0 : m ≠ 0) :
    ∃ v, ls.find? (fun v => v.length == m) = some v ∧ v.length = m := by
  induction ls with
  | nil => exact absurd (by simpa [maxLenL] using hm.symm) h0
  | cons v t ih =>
    by_cases hv : v.length = m
    · exact ⟨v, find?_cons_true (fun u => u.length == m) v t (nat_beq_true hv), hv⟩
    · have hmax : Nat.max v.length (maxLenL t) = m := hm
      have hmt : maxLenL t = m := by
        rcases Nat.le_total v.length (maxLenL t) with hle | hle
        · rw [natMax_right hle] at hmax; exact hmax
        · rw [natMax_left hle] at hmax; exact absurd hmax hv
      obtain ⟨w, hw, hlw⟩ := ih hmt
      exact ⟨w, by
        rw [find?_cons_false (fun u => u.length == m) v t (nat_beq_false hv), hw], hlw⟩

theorem segFold_eq (ls : List (List String)) (acc : List String) :
    segFold ls acc =
      if maxLenL ls ≤ acc.length then acc
      else (ls.find? (fun v => v.length == maxLenL ls)).getD acc := by
  induction ls generalizing acc with
  | nil => simp [segFold, maxLenL]
  | cons v t ih =>
    rw [segFold, ih]
    by_cases hv : acc.length < v.length
    · simp only [if_pos hv]
      by_cases hM : maxLenL t ≤ v.length
      · have hmx : maxLenL (v :: t) = v.length := natMax_left hM
        rw [if_pos hM, hmx, if_neg (by omega),
          find?_cons_true (fun u => u.length == v.length) v t (nat_beq_true rfl),
          Option.getD_some]
      · have hlt : v.length < maxLenL t := by omega
        have hmx : maxLenL (v :: t) = maxLenL t :=
          natMax_right (show v.length ≤ maxLenL t by omega)
        rw [if_neg hM, hmx, if_neg (by omega),
          find?_cons_false (fun u => u.length == maxLenL t) v t (nat_beq_false (by omega))]
        obtain ⟨w, hw, _⟩ := find_attains t (maxLenL t) rfl (by omega)
        rw [hw, Option.getD_some, Option.getD_some]
    · have hvle : v.length ≤ acc.length := by omega
      simp only [if_neg hv]
      by_cases hM : maxLenL t ≤ acc.length
      · have hmx : maxLenL (v :: t) ≤ acc.length := by
          have h2 : maxLenL (v :: t) = Nat.max v.length (maxLenL t) := rfl
          rw [h2]
          rcases Nat.le_total v.length (maxLenL t) with hle | hle
          · rw [natMax_right hle]; omega
          · rw [natMax_left hle]; omega
        rw [if_pos hM, if_pos hmx]
      · have hlt : acc.length < maxLenL t := by omega
        have hmx : maxLenL (v :: t) = maxLenL t :=
          natMax_right (show v.length ≤ maxLenL t by omega)
        rw [if_neg hM, hmx, if_neg (by omega),
          find?_cons_false (fun u => u.length == maxLenL t) v t (nat_beq_false (by omega))]

/-- C2: the claim asserts that pieces of trimmed length at least 300 are
kept (pieces shorter than 300 discarded).  The code keeps only pieces of
trimmed length strictly greater than 300, so on a document with a
301-character block and a 300-character block joined by === the code
returns the whole document as a single section while the claim's reading
returns the two blocks. -/
theorem C2_threshold_counterexample :
    parseTextContentSections c2doc = [c2doc] ∧
    segmentClaimSpec c2doc =
      [String.mk (List.replicate 301 'a'), String.mk (List.replicate 300 'b')] ∧
    [c2doc] ≠ [String.mk (List.replicate 301 'a'), String.mk (List.replicate 300 'b')] := by
  exact ⟨by decide, by decide, by decide⟩

/-- C2 amended: segmentation evaluates the fixed candidate list, keeps for
each candidate the pieces of trimmed length strictly greater than 300,
returns the split of the first candidate attaining the maximum count of
valid pieces (declaration order breaking ties), and treats the whole
document as a single section when no candidate yields any valid piece. -/
theorem C2_segmenter_first_max (content : String) :
    parseTextContentSections content = segmentSpec content := by
  unfold parseTextContentSections segmentSpec
  rw [segLoop_eq_segFold, segFold_eq]
  by_cases h0 : maxLenL (potentialSeparators.map (fun p => validPieces p content)) = 0
  · have h1 : maxLenL (potentialSeparators.map (fun p => validPieces p content)) ≤
        ([] : List String).length := by
      simp only [List.length_nil, Nat.le_zero]
      exact h0
    rw [if_pos h1, if_pos rfl, if_pos h0]
  · have h1 : ¬ (maxLenL (potentialSeparators.map (fun p => validPieces p content)) ≤
        ([] : List String).length) := by
      simp only [List.length_nil, Nat.le_zero]
      exact h0
    rw [if_neg h1, if_neg h0]
    obtain ⟨w, hw, hlw⟩ :=
      find_attains (potentialSeparators.map (fun p => validPieces p content)) _ rfl h0
    rw [hw, Option.getD_some]
    have hne : w ≠ [] := by
      intro hnil
      rw [hnil] at hlw
      exact h0 hlw.symm
    rw [if_neg hne]

theorem maskLoopTry_error (f : Transcript → Except String (Transcript × PiiCounts))
    (ts : List Transcript) (t : Transcript) (e : String) (hmem : t ∈ ts)
    (herr : f t = Except.error e) (acc : List Transcript) (stats : PiiCounts) :
    ∃ e2, maskLoopTry f ts acc stats = Except.error e2 := by
  induction ts generalizing acc stats with
  | nil => cases hmem
  | cons h rest ih =>
    rcases List.mem_cons.mp hmem with rfl | hmem2
    · exact ⟨e, by rw [maskLoopTry, herr]⟩
    · cases hfh : f h with
      | error e0 => exact ⟨e0, by rw [maskLoopTry, hfh]⟩
      | ok mc => simpa [maskLoopTry, hfh] using ih hmem2 (mc.1 :: acc) (addCounts stats mc.2)

theorem parseLoopGo_error (g : String → Except String Transcript)
    (secs : List String) (s : String) (e : String) (hmem : s ∈ secs)
    (hlong : ¬ (pyStrip s).length < 100) (herr : g s = Except.error e)
    (acc : List Transcript) :
    ∃ e2, parseLoopGo g secs acc = Except.error e2 := by
  induction secs generalizing acc with
  | nil => cases hmem
  | cons h rest ih =>
    rcases List.mem_cons.mp hmem with rfl | hmem2
    · exact ⟨e, by rw [parseLoopGo, if_neg hlong, herr]⟩
    · by_cases hsh : (pyStrip h).length < 100
      · simpa [parseLoopGo, hsh] using ih hmem2 acc
      · cases hgh : g h with
        | error e0 => exact ⟨e0, by rw [parseLoopGo, if_neg hsh, hgh]⟩
        | ok r => simpa [parseLoopGo, hsh, hgh] using ih hmem2 (r :: acc)

/-- C6: the claim asserts per-record and per-section fault isolation: a
section whose extraction raises is skipped and a record whose masking
raises is dropped while the rest of the batch is still processed.  In the
code the only try/except blocks wrap the entire loops, so one failing
record makes mask_data abort the whole batch (returning failure, writing
nothing): with a two-record batch whose first record's masking raises, the
result is an error instead of a one-record output, even though the second
record on its own masks fine. -/
theorem C6_counterexample :
    maskDataCore failOnBad [tBad, tGood] = Except.error "mask exception" ∧
    maskDataCore failOnBad [tGood] = Except.ok ([tGood], zeroCounts) :=
  ⟨rfl, rfl⟩

/-- C6 amended: an exception while masking any record of a batch aborts
the whole mask_data run (no output is produced), and an exception while
extracting any non-skipped section makes parse_pdf return the empty batch;
there is no per-record or per-section fault isolation. -/
theorem C6_batch_abort :
    (∀ (f : Transcript → Except String (Transcript × PiiCounts)) (ts : List Transcript)
        (t : Transcript) (e : String), t ∈ ts → f t = Except.error e →
        ∃ e2, maskDataCore f ts = Except.error e2) ∧
    (∀ (g : String → Except String Transcript) (secs : List String) (s : String) (e : String),
        s ∈ secs → ¬ (pyStrip s).length < 100 → g s = Except.error e →
        parseTryAll g secs = []) := by
  constructor
  · intro f ts t e hmem herr
    exact maskLoopTry_error f ts t e hmem herr [] zeroCounts
  · intro g secs s e hmem hlong herr
    obtain ⟨e2, he2⟩ := parseLoopGo_error g secs s e hmem hlong herr []
    unfold parseTryAll
    rw [he2]

/-- C6 witness: the two-record batch with a failing first record satisfies
the hypotheses of the amended theorem and the whole run errors out. -/
theorem C6_witness :
    ∃ e2, maskDataCore failOnBad [tBad, tGood] = Except.error e2 :=
  C6_batch_abort.1 failOnBad [tBad, tGood] tBad "mask exception"
    (List.mem_cons_self tBad [tGood]) rfl

end TCG
